import Mathlib

/-!
Verification development for the Shelly device gateway
(`shelly_server.py`): connection registry, RPC correlation engine,
metric extraction and the HTTP facade of the metrics endpoint.

The Python dictionaries are embedded as association lists over `String`
keys (insertion ordered, unique keys on every reachable state, exactly the
observable behaviour of a Python `dict`).  JSON values are embedded as the
inductive `JVal`, with JSON numbers as rationals (every numeric literal in
the claims is an exact decimal, so no floating-point rounding is
observable).  Fallible Python operations (`float(x)`, `int(x)`) return
`Option`; the `try/except` block of the extraction function is embedded as
an `Except` pipeline whose error value carries the metric map built so
far, exactly as the mutated `metrics` dict survives the caught exception.
-/

namespace ShellyGateway

/-- A JSON value, as produced by `json.loads` on a device frame. -/
inductive JVal where
  | null
  | bool (b : Bool)
  | num (q : ℚ)
  | str (s : String)
  | arr (elems : List JVal)
  | obj (fields : List (String × JVal))

/-- A value stored in the metrics dict: Python `int` or `float`
(`_extract_metrics_from_rpc_result` stores both kinds). -/
inductive MVal where
  | i (n : ℤ)
  | f (q : ℚ)
deriving DecidableEq, Repr

/-- `d.get(key)` / `d[key]` / `key in d` on a Python dict embedded as an
association list: the first (on a dict state: the only) binding wins. -/
def lookupKey {α : Type} : List (String × α) → String → Option α
  | [], _ => none
  | (k, v) :: rest, key => if k = key then some v else lookupKey rest key

/-- `d[key] = v` on a Python dict: overwrite the existing binding in place,
else append a new binding (dicts preserve insertion order). -/
def setKey {α : Type} : List (String × α) → String → α → List (String × α)
  | [], key, v => [(key, v)]
  | (k, w) :: rest, key, v =>
      if k = key then (key, v) :: rest else (k, w) :: setKey rest key v

/-- `del d[key]` / `d.pop(key, None)` on a Python dict: drop the (unique)
binding for `key` when present. -/
def removeKey {α : Type} : List (String × α) → String → List (String × α)
  | [], _ => []
  | (k, v) :: rest, key => if k = key then rest else (k, v) :: removeKey rest key

/-- Consume the leading ASCII digits of a character list: their values
and the remainder. -/
def takeDigits : List Char → List ℕ × List Char
  | [] => ([], [])
  | c :: rest =>
      if c.isDigit then
        let p := takeDigits rest
        ((c.toNat - 48) :: p.1, p.2)
      else ([], c :: rest)

/-- The number a digit list spells in base 10. -/
def digitsToNat (ds : List ℕ) : ℕ := ds.foldl (fun a d => 10 * a + d) 0

/-- Consume an optional leading sign; `true` means negative. -/
def takeSign : List Char → Bool × List Char
  | [] => (false, [])
  | c :: rest =>
      if c = '-' then (true, rest)
      else if c = '+' then (false, rest)
      else (false, c :: rest)

/-- Python `float(s)` on a string: optional ASCII whitespace, an optional
sign, then digits with an optional fraction and an optional decimal
exponent ("12.3", "-0.5", ".5", "2.", "1e-3"); `none` where `float`
raises `ValueError`.  Not modelled (also `none` here): "inf" and "nan"
(no finite rational exists), digit-group underscores and non-ASCII
digits; no theorem below relies on the string case of a conversion. -/
def pyFloat? (s : String) : Option ℚ :=
  let cs0 := s.data.dropWhile Char.isWhitespace
  let sgn := takeSign cs0
  let ip := takeDigits sgn.2
  let fp :=
    match ip.2 with
    | c :: rest => if c = '.' then takeDigits rest else ([], c :: rest)
    | [] => (([] : List ℕ), ([] : List Char))
  let ex : Option (ℤ × List Char) :=
    match fp.2 with
    | c :: rest =>
        if c = 'e' ∨ c = 'E' then
          let esgn := takeSign rest
          let eds := takeDigits esgn.2
          if eds.1.isEmpty then none
          else some (if esgn.1 then -(digitsToNat eds.1 : ℤ) else (digitsToNat eds.1 : ℤ), eds.2)
        else some (0, c :: rest)
    | [] => some (0, [])
  match ex with
  | none => none
  | some e =>
      if (ip.1.isEmpty ∧ fp.1.isEmpty) ∨ ¬ (e.2.dropWhile Char.isWhitespace).isEmpty then none
      else
        let mant : ℚ := (digitsToNat ip.1 : ℚ) + (digitsToNat fp.1 : ℚ) / (10 : ℚ) ^ fp.1.length
        some ((if sgn.1 then -mant else mant) * (10 : ℚ) ^ e.1)

/-- Python `int(s)` on a string: optional ASCII whitespace, an optional
sign, ASCII digits; `none` where `int` raises `ValueError`.  Digit-group
underscores and non-ASCII digits are not modelled. -/
def pyInt? (s : String) : Option ℤ :=
  let cs0 := s.data.dropWhile Char.isWhitespace
  let sgn := takeSign cs0
  let ds := takeDigits sgn.2
  if ds.1.isEmpty ∨ ¬ (ds.2.dropWhile Char.isWhitespace).isEmpty then none
  else some (if sgn.1 then -(digitsToNat ds.1 : ℤ) else (digitsToNat ds.1 : ℤ))

/-- Python `float(x)` on a JSON value: numbers pass through, booleans
become 1/0, strings parse as decimal literals (`pyFloat?`), and `None`,
lists and dicts raise `TypeError` (`none`). -/
def toFloat? : JVal → Option ℚ
  | .num q => some q
  | .bool b => some (if b then 1 else 0)
  | .str s => pyFloat? s
  | _ => none

/-- Python `int(x)` on a JSON value: numbers truncate toward zero,
booleans become 1/0, strings parse as decimal integers (`pyInt?`), and
everything else raises (`none`). -/
def toInt? : JVal → Option ℤ
  | .num q => some (if 0 ≤ q then ⌊q⌋ else ⌈q⌉)
  | .bool b => some (if b then 1 else 0)
  | .str s => pyInt? s
  | _ => none

/-- Python truthiness of a JSON value (`1 if result["output"] else 0`). -/
def truthy : JVal → Bool
  | .null => false
  | .bool b => b
  | .num q => decide (q ≠ 0)
  | .str s => decide (s ≠ "")
  | .arr elems => !elems.isEmpty
  | .obj fields => !fields.isEmpty

/-- Python `s in xs` for a string against a JSON list: `==` against each
element, true only for an equal string element. -/
def containsStr (xs : List JVal) (s : String) : Bool :=
  xs.any fun v => match v with
    | .str t => t = s
    | _ => false

/-- The metrics dict under construction. -/
abbrev Metrics := List (String × MVal)

/-- Sequencing inside the single `try` block of
`_extract_metrics_from_rpc_result`: a raised exception (`.error`) skips
every remaining statement, carrying the metrics built so far. -/
def andThen (x : Except Metrics Metrics) (f : Metrics → Except Metrics Metrics) :
    Except Metrics Metrics :=
  match x with
  | .ok m => f m
  | .error m => .error m

/-- `if "output" in result: metrics["shelly_power_switch_output"] = 1 if result["output"] else 0`. -/
def outputStep (r : List (String × JVal)) (m : Metrics) : Except Metrics Metrics :=
  match lookupKey r "output" with
  | some v => .ok (setKey m "shelly_power_switch_output" (.i (if truthy v then 1 else 0)))
  | none => .ok m

/-- `if field in o: metrics[key] = float(o[field])` — a failing `float`
raises out of the block. -/
def floatField (o : List (String × JVal)) (field key : String) (m : Metrics) :
    Except Metrics Metrics :=
  match lookupKey o field with
  | some v =>
      match toFloat? v with
      | some q => .ok (setKey m key (.f q))
      | none => .error m
  | none => .ok m

/-- `if field in o: metrics[key] = int(o[field])`. -/
def intField (o : List (String × JVal)) (field key : String) (m : Metrics) :
    Except Metrics Metrics :=
  match lookupKey o field with
  | some v =>
      match toInt? v with
      | some n => .ok (setKey m key (.i n))
      | none => .error m
  | none => .ok m

/-- `for i, value in enumerate(o["by_minute"][:3]): metrics[f"{keyBase}{i}_mwh"] = float(value)`. -/
def byMinuteLoop (keyBase : String) : List JVal → ℕ → Metrics → Except Metrics Metrics
  | [], _, m => .ok m
  | v :: rest, i, m =>
      match toFloat? v with
      | some q => byMinuteLoop keyBase rest (i + 1) (setKey m (keyBase ++ toString i ++ "_mwh") (.f q))
      | none => .error m

/-- `if "by_minute" in o and isinstance(o["by_minute"], list): ...` -/
def byMinuteStep (o : List (String × JVal)) (keyBase : String) (m : Metrics) :
    Except Metrics Metrics :=
  match lookupKey o "by_minute" with
  | some (.arr xs) => byMinuteLoop keyBase (xs.take 3) 0 m
  | _ => .ok m

/-- The `aenergy` block: guarded by `isinstance(result["aenergy"], dict)`;
extracts `total`, the first three `by_minute` entries and `minute_ts`. -/
def aenergyStep (r : List (String × JVal)) (m : Metrics) : Except Metrics Metrics :=
  match lookupKey r "aenergy" with
  | some (.obj aenergy) =>
      andThen (floatField aenergy "total" "shelly_energy_total_wh" m) fun m =>
      andThen (byMinuteStep aenergy "shelly_energy_minute_" m) fun m =>
      intField aenergy "minute_ts" "shelly_energy_minute_timestamp" m
  | _ => .ok m

/-- The `ret_aenergy` block, same shape as `aenergy` with `returned` keys. -/
def retAenergyStep (r : List (String × JVal)) (m : Metrics) : Except Metrics Metrics :=
  match lookupKey r "ret_aenergy" with
  | some (.obj ret) =>
      andThen (floatField ret "total" "shelly_energy_returned_total_wh" m) fun m =>
      andThen (byMinuteStep ret "shelly_energy_returned_minute_" m) fun m =>
      intField ret "minute_ts" "shelly_energy_returned_minute_timestamp" m
  | _ => .ok m

/-- `if field in temp and temp[field] is not None: metrics[key] = float(temp[field])`
— the explicit null check of the temperature block. -/
def tempField (o : List (String × JVal)) (field key : String) (m : Metrics) :
    Except Metrics Metrics :=
  match lookupKey o field with
  | some .null => .ok m
  | some v =>
      match toFloat? v with
      | some q => .ok (setKey m key (.f q))
      | none => .error m
  | none => .ok m

/-- The `temperature` block: guarded by `isinstance(..., dict)`; `tC` and
`tF` are skipped when null. -/
def temperatureStep (r : List (String × JVal)) (m : Metrics) : Except Metrics Metrics :=
  match lookupKey r "temperature" with
  | some (.obj temp) =>
      andThen (tempField temp "tC" "shelly_temperature_celsius" m) fun m =>
      tempField temp "tF" "shelly_temperature_fahrenheit" m
  | _ => .ok m

/-- `for error_type in error_types: metrics[f"shelly_error_{error_type}"] = 1 if ... else 0`. -/
def errorFlagLoop (errs : List JVal) : List String → Metrics → Metrics
  | [], m => m
  | t :: rest, m =>
      errorFlagLoop errs rest
        (setKey m ("shelly_error_" ++ t) (.i (if containsStr errs t then 1 else 0)))

/-- The `errors` block: guarded by `isinstance(result["errors"], list)`;
a count plus one 1/0 flag per known error name.  No statement in it can raise. -/
def errorsStep (r : List (String × JVal)) (m : Metrics) : Except Metrics Metrics :=
  match lookupKey r "errors" with
  | some (.arr errs) =>
      .ok (errorFlagLoop errs ["overtemp", "overpower", "overvoltage", "undervoltage"]
            (setKey m "shelly_errors_count" (.i errs.length)))
  | _ => .ok m

/-- The body of the `try` block of `_extract_metrics_from_rpc_result`, in
source order, starting from the metrics dict built so far. -/
def extractSteps (r : List (String × JVal)) (m : Metrics) : Except Metrics Metrics :=
  andThen (outputStep r m) fun m =>
  andThen (floatField r "apower" "shelly_power_total_watts" m) fun m =>
  andThen (floatField r "voltage" "shelly_power_voltage_volts" m) fun m =>
  andThen (floatField r "current" "shelly_power_current_amps" m) fun m =>
  andThen (floatField r "pf" "shelly_power_factor" m) fun m =>
  andThen (floatField r "freq" "shelly_power_frequency_hz" m) fun m =>
  andThen (aenergyStep r m) fun m =>
  andThen (retAenergyStep r m) fun m =>
  andThen (temperatureStep r m) fun m =>
  errorsStep r m

/-- `_extract_metrics_from_rpc_result(result)`: `metrics = {}`; run the
`try` block; the `except` clause catches any raised conversion error and
the metrics built before the raise are returned.  A non-dict argument
fails its first membership test inside the `try` and yields the empty
dict the same way. -/
def extractMetrics : JVal → Metrics
  | .obj fields =>
      match extractSteps fields [] with
      | .ok m => m
      | .error m => m
  | _ => []

/-! ## Connection registry (`ShellyConnectionRegistry`)

The registry state is `connections : dict[str, websocket]`, embedded as an
association list over an abstract session type `S`.  Every operation is a
total function (the Python methods never raise). -/

/-- `register(device_id, websocket)`: `connections[device_id] = websocket`. -/
def register {S : Type} (conns : List (String × S)) (device_id : String) (ws : S) :
    List (String × S) :=
  setKey conns device_id ws

/-- `unregister(device_id)`: `if device_id in connections: del connections[device_id]`. -/
def unregister {S : Type} (conns : List (String × S)) (device_id : String) :
    List (String × S) :=
  removeKey conns device_id

/-- `get_connection(device_id)`: `connections.get(device_id)`. -/
def get_connection {S : Type} (conns : List (String × S)) (device_id : String) : Option S :=
  lookupKey conns device_id

/-- `get_all_devices()`: `list(connections.keys())`. -/
def get_all_devices {S : Type} (conns : List (String × S)) : List String :=
  conns.map Prod.fst

/-! ## RPC correlation engine (`ShellyWebSocketHandler`)

`pending_requests : dict[str, asyncio.Future]` — a future is either still
pending (`none`) or resolved with the dispatched message (`some payload`).
A timed-out future never stays in the table: `send_rpc_request` pops its
entry in its `finally` block before the coroutine returns. -/

/-- The pending-request table, `{request_id: asyncio.Future}`. -/
abbrev PendingMap := List (String × Option JVal)

/-- A Python exception as observed by the HTTP handler:
`asyncio.TimeoutError` or a generic `Exception(msg)`. -/
inductive PyError where
  | timeoutError
  | exception (msg : String)
deriving DecidableEq, Repr

/-- `dispatch_rpc_response(message)` once the message carries the string
request id `rid` found in `pending_requests`: fulfill the future only when
it is not yet done, and return `True` either way; the entry itself is
never removed here. -/
def dispatchAt (pending : PendingMap) (rid : String) (payload : JVal) :
    PendingMap × Bool :=
  match lookupKey pending rid with
  | some none => (setKey pending rid (some payload), true)
  | some (some _) => (pending, true)
  | none => (pending, false)

/-- `dispatch_rpc_response(message)`: `if "id" in message and message["id"]
in self.pending_requests`.  The table keys are generated UUID strings, so
only a string id can be a member; a message without an id, or with an
unknown id, is reported not-consumed (`False`) and changes nothing. -/
def dispatch_rpc_response (pending : PendingMap) (message : List (String × JVal)) :
    PendingMap × Bool :=
  match lookupKey message "id" with
  | some (JVal.str rid) => dispatchAt pending rid (JVal.obj message)
  | _ => (pending, false)

/-- The timeout path of `send_rpc_request`: the fresh future is stored
under `request_id`, `asyncio.wait_for` elapses, the `except
asyncio.TimeoutError` clause raises a plain `Exception("RPC request
timeout")`, and the `finally` clause pops the entry.  Returns the table
after the call and the exception that escapes it. -/
def send_rpc_request_timeout (pending : PendingMap) (request_id : String) :
    PendingMap × PyError :=
  let p1 := setKey pending request_id none
  (removeKey p1 request_id, PyError.exception "RPC request timeout")

/-! ## HTTP facade (`ShellyHTTPHandler.handle_metrics`) -/

/-- What `await asyncio.wait_for(future, timeout=5.0)` yields inside
`send_rpc_request`: a dispatched response frame, or a timeout. -/
inductive WaitOutcome where
  | response (msg : List (String × JVal))
  | timedOut

/-- The result of `send_rpc_request` as its caller observes it: a
dispatched message, or — because the `except asyncio.TimeoutError` clause
re-raises a plain `Exception` — the generic exception carrying
"RPC request timeout" (never `asyncio.TimeoutError` itself). -/
def send_rpc_result : WaitOutcome → Except PyError (List (String × JVal))
  | .response m => .ok m
  | .timedOut => .error (.exception "RPC request timeout")

/-- An HTTP response of `GET /metrics`: 200 with device id and metrics, or
an error status with the `{"error": message}` body. -/
inductive MetricsResponse where
  | ok (device_id : String) (metrics : Metrics)
  | err (status : ℕ) (message : String)
deriving DecidableEq, Repr

/-- `handle_metrics(request)` over registry state `registry` when the
issued `send_rpc_request` behaves as `w`: 404 when no device is
registered; 502 when the session handle vanished between the two registry
reads (a race, unreachable in this sequential model); otherwise extraction
on `response["result"]`, with `raise Exception("Invalid RPC response")`
when the key is missing.  `except asyncio.TimeoutError` maps to 504 and
`except Exception as e` to 500 with `str(e)`. -/
def handle_metrics {S : Type} (registry : List (String × S)) (w : WaitOutcome) :
    MetricsResponse :=
  match get_all_devices registry with
  | [] => .err 404 "No Shelly device connected"
  | device_id :: _ =>
      match get_connection registry device_id with
      | none => .err 502 "Device connection lost"
      | some _ =>
          match send_rpc_result w with
          | .ok response =>
              match lookupKey response "result" with
              | some result => .ok device_id (extractMetrics result)
              | none => .err 500 "Invalid RPC response"
          | .error .timeoutError => .err 504 "RPC request timeout"
          | .error (.exception msg) => .err 500 msg

/-! ## Association-list lemmas (dict semantics) -/

theorem lookupKey_setKey_self {α : Type} (l : List (String × α)) (k : String) (v : α) :
    lookupKey (setKey l k v) k = some v := by
  induction l with
  | nil => simp [setKey, lookupKey]
  | cons p rest ih =>
      obtain ⟨a, b⟩ := p
      by_cases h : a = k
      · simp [setKey, h, lookupKey]
      · simp [setKey, h, lookupKey, ih]

theorem map_fst_setKey_of_isSome {α : Type} (l : List (String × α)) (k : String) (v : α)
    (h : (lookupKey l k).isSome) :
    (setKey l k v).map Prod.fst = l.map Prod.fst := by
  induction l with
  | nil => simp [lookupKey] at h
  | cons p rest ih =>
      obtain ⟨a, b⟩ := p
      by_cases hk : a = k
      · simp [setKey, hk]
      · have h' : (lookupKey rest k).isSome := by simpa [lookupKey, hk] using h
        simp [setKey, hk, ih h']

theorem setKey_eq_append {α : Type} (l : List (String × α)) (k : String) (v : α)
    (h : lookupKey l k = none) :
    setKey l k v = l ++ [(k, v)] := by
  induction l with
  | nil => simp [setKey]
  | cons p rest ih =>
      obtain ⟨a, b⟩ := p
      have hk : ¬ a = k := by
        intro e
        simp [lookupKey, e] at h
      have h' : lookupKey rest k = none := by simpa [lookupKey, hk] using h
      simp [setKey, hk, ih h']

theorem removeKey_append_self {α : Type} (l : List (String × α)) (k : String) (v : α)
    (h : lookupKey l k = none) :
    removeKey (l ++ [(k, v)]) k = l := by
  induction l with
  | nil => simp [removeKey]
  | cons p rest ih =>
      obtain ⟨a, b⟩ := p
      have hk : ¬ a = k := by
        intro e
        simp [lookupKey, e] at h
      have h' : lookupKey rest k = none := by simpa [lookupKey, hk] using h
      simp [removeKey, hk, ih h']

theorem removeKey_of_lookup_none {α : Type} (l : List (String × α)) (k : String)
    (h : lookupKey l k = none) :
    removeKey l k = l := by
  induction l with
  | nil => simp [removeKey]
  | cons p rest ih =>
      obtain ⟨a, b⟩ := p
      have hk : ¬ a = k := by
        intro e
        simp [lookupKey, e] at h
      have h' : lookupKey rest k = none := by simpa [lookupKey, hk] using h
      simp [removeKey, hk, ih h']

theorem lookupKey_eq_none_of_not_mem {α : Type} (l : List (String × α)) (k : String)
    (h : k ∉ l.map Prod.fst) :
    lookupKey l k = none := by
  induction l with
  | nil => rfl
  | cons p rest ih =>
      obtain ⟨a, b⟩ := p
      simp only [List.map_cons, List.mem_cons] at h
      push_neg at h
      have hk : ¬ a = k := fun e => h.1 e.symm
      simp [lookupKey, hk, ih h.2]

theorem lookupKey_removeKey_self {α : Type} (l : List (String × α)) (k : String)
    (h : (l.map Prod.fst).Nodup) :
    lookupKey (removeKey l k) k = none := by
  induction l with
  | nil => rfl
  | cons p rest ih =>
      obtain ⟨a, b⟩ := p
      simp only [List.map_cons, List.nodup_cons] at h
      by_cases hk : a = k
      · subst hk
        simpa [removeKey] using lookupKey_eq_none_of_not_mem rest a h.1
      · simp [removeKey, hk, lookupKey, ih h.2]

/-! ## Claim theorems: connection registry -/

/-- C5: registering an already-registered id replaces the stored session,
never errors (`register` is a total function), and leaves `listIds()` —
and hence its length — unchanged: still exactly one entry for that id. -/
theorem register_replaces {S : Type} (conns : List (String × S)) (id : String)
    (s1 s2 : S) (h : lookupKey conns id = some s1) :
    lookupKey (register conns id s2) id = some s2 ∧
    get_all_devices (register conns id s2) = get_all_devices conns ∧
    (get_all_devices (register conns id s2)).length
      = (get_all_devices conns).length := by
  have hkeys : (setKey conns id s2).map Prod.fst = conns.map Prod.fst :=
    map_fst_setKey_of_isSome conns id s2 (by simp [h])
  exact ⟨lookupKey_setKey_self conns id s2, hkeys, by rw [get_all_devices,
    get_all_devices, register, hkeys]⟩

theorem register_replaces_witness :
    lookupKey (register [("shellyplug-s-1", 0)] "shellyplug-s-1" 1) "shellyplug-s-1"
      = some 1 ∧
    get_all_devices (register [("shellyplug-s-1", 0)] "shellyplug-s-1" 1)
      = get_all_devices [("shellyplug-s-1", 0)] ∧
    (get_all_devices (register [("shellyplug-s-1", 0)] "shellyplug-s-1" 1)).length
      = (get_all_devices [("shellyplug-s-1", (0 : ℕ))]).length :=
  register_replaces [("shellyplug-s-1", 0)] "shellyplug-s-1" 0 1 rfl

/-- C6: `unregister` is idempotent on every dict state (keys pairwise
distinct, the invariant of every reachable registry): removing twice
equals removing once, it never errors (total function), and on an id that
was never registered it leaves the registry unchanged. -/
theorem unregister_idempotent {S : Type} (conns : List (String × S)) (id : String)
    (h : (conns.map Prod.fst).Nodup) :
    unregister (unregister conns id) id = unregister conns id ∧
    (lookupKey conns id = none → unregister conns id = conns) := by
  constructor
  · exact removeKey_of_lookup_none _ _ (lookupKey_removeKey_self conns id h)
  · intro h0
    exact removeKey_of_lookup_none _ _ h0

theorem unregister_idempotent_witness :
    unregister (unregister [("shellyplug-s-1", 0)] "ghost") "ghost"
      = unregister [("shellyplug-s-1", 0)] "ghost" ∧
    unregister [("shellyplug-s-1", (0 : ℕ))] "ghost" = [("shellyplug-s-1", 0)] := by
  have h := unregister_idempotent [("shellyplug-s-1", (0 : ℕ))] "ghost" (by simp)
  exact ⟨h.1, h.2 rfl⟩

/-! ## Claim theorems: RPC correlation engine -/

theorem dispatch_eq_dispatchAt (pending : PendingMap) (message : List (String × JVal))
    (rid : String) (hid : lookupKey message "id" = some (JVal.str rid)) :
    dispatch_rpc_response pending message = dispatchAt pending rid (JVal.obj message) := by
  unfold dispatch_rpc_response
  rw [hid]

theorem dispatchAt_of_not_done (pending : PendingMap) (rid : String) (payload : JVal)
    (h : lookupKey pending rid = some none) :
    dispatchAt pending rid payload = (setKey pending rid (some payload), true) := by
  unfold dispatchAt
  rw [h]

theorem dispatchAt_of_done (pending : PendingMap) (rid : String) (payload r : JVal)
    (h : lookupKey pending rid = some (some r)) :
    dispatchAt pending rid payload = (pending, true) := by
  unfold dispatchAt
  rw [h]

theorem dispatchAt_of_absent (pending : PendingMap) (rid : String) (payload : JVal)
    (h : lookupKey pending rid = none) :
    dispatchAt pending rid payload = (pending, false) := by
  unfold dispatchAt
  rw [h]

/-- C1 counterexample: with the entry for `req-1` already resolved,
`dispatch_rpc_response` still returns `True` (the claim requires `false`),
and a successful dispatch for `req-2` leaves the entry in the table (the
claim requires its removal). -/
theorem dispatch_counterexample :
    (dispatch_rpc_response [("req-1", some (JVal.obj []))] [("id", JVal.str "req-1")]).2
      = true ∧
    (lookupKey (dispatch_rpc_response [("req-2", none)] [("id", JVal.str "req-2")]).1
        "req-2").isSome = true :=
  ⟨rfl, rfl⟩

/-- C1 (amended): `dispatch_rpc_response` returns `True` whenever a
`PendingRequest` for the message's id is present — fulfilling the waiter
with the message only when it is not already resolved, and never removing
the entry (removal is `send_rpc_request`'s `finally`) — and returns
`False`, changing nothing, when the id is unknown (including after a
timeout removed it). -/
theorem dispatch_consumes (pending : PendingMap) (message : List (String × JVal))
    (rid : String) (hid : lookupKey message "id" = some (JVal.str rid)) :
    (lookupKey pending rid = some none →
        (dispatch_rpc_response pending message).2 = true ∧
        lookupKey (dispatch_rpc_response pending message).1 rid
          = some (some (JVal.obj message))) ∧
    (∀ r, lookupKey pending rid = some (some r) →
        dispatch_rpc_response pending message = (pending, true)) ∧
    (lookupKey pending rid = none →
        dispatch_rpc_response pending message = (pending, false)) := by
  rw [dispatch_eq_dispatchAt pending message rid hid]
  refine ⟨fun h => ?_, fun r h => ?_, fun h => ?_⟩
  · rw [dispatchAt_of_not_done pending rid _ h]
    exact ⟨rfl, lookupKey_setKey_self pending rid _⟩
  · exact dispatchAt_of_done pending rid _ r h
  · exact dispatchAt_of_absent pending rid _ h

theorem dispatch_consumes_witness :
    (dispatch_rpc_response [("req-9", none)] [("id", JVal.str "req-9")]).2 = true ∧
    lookupKey (dispatch_rpc_response [("req-9", none)] [("id", JVal.str "req-9")]).1
        "req-9"
      = some (some (JVal.obj [("id", JVal.str "req-9")])) :=
  (dispatch_consumes [("req-9", none)] [("id", JVal.str "req-9")] "req-9" rfl).1 rfl

/-- C4: a `send_rpc_request` whose waiter is never resolved fails with the
timeout error (`Exception("RPC request timeout")`, the code's `RpcTimeout`),
its `PendingRequest` entry is gone from the table (the `finally` pop), and
a subsequent dispatch of a response carrying that same id returns `False`
and changes nothing.  `hfresh` is the freshness of the generated UUID. -/
theorem timeout_removes_entry (pending : PendingMap) (rid : String)
    (message : List (String × JVal))
    (hfresh : lookupKey pending rid = none)
    (hid : lookupKey message "id" = some (JVal.str rid)) :
    (send_rpc_request_timeout pending rid).2 = PyError.exception "RPC request timeout" ∧
    lookupKey (send_rpc_request_timeout pending rid).1 rid = none ∧
    dispatch_rpc_response (send_rpc_request_timeout pending rid).1 message
      = ((send_rpc_request_timeout pending rid).1, false) := by
  have e1 : (send_rpc_request_timeout pending rid).1 = pending := by
    show removeKey (setKey pending rid none) rid = pending
    rw [setKey_eq_append pending rid none hfresh,
      removeKey_append_self pending rid none hfresh]
  refine ⟨rfl, ?_, ?_⟩
  · rw [e1]
    exact hfresh
  · rw [e1, dispatch_eq_dispatchAt pending message rid hid]
    exact dispatchAt_of_absent pending rid _ hfresh

theorem timeout_removes_entry_witness :
    (send_rpc_request_timeout [] "req-7").2 = PyError.exception "RPC request timeout" ∧
    lookupKey (send_rpc_request_timeout [] "req-7").1 "req-7" = none ∧
    dispatch_rpc_response (send_rpc_request_timeout [] "req-7").1
        [("id", JVal.str "req-7")]
      = ((send_rpc_request_timeout [] "req-7").1, false) :=
  timeout_removes_entry [] "req-7" [("id", JVal.str "req-7")] rfl rfl

/-! ## Claim theorems: HTTP facade -/

/-- C2: an RPC timeout under `GET /metrics` surfaces as status 500, not
504: `send_rpc_request` catches `asyncio.TimeoutError` and re-raises a
plain `Exception("RPC request timeout")`, so `handle_metrics`'s
`except asyncio.TimeoutError` branch (the only source of 504) never fires;
the generic `except Exception` branch answers 500 with the message. -/
theorem metrics_timeout_is_500 :
    send_rpc_result WaitOutcome.timedOut
      = Except.error (PyError.exception "RPC request timeout") ∧
    handle_metrics [("shellyplug-s-1", 0)] WaitOutcome.timedOut
      = MetricsResponse.err 500 "RPC request timeout" :=
  ⟨rfl, rfl⟩

/-- C9 counterexample: with zero registered devices the handler does
answer 404, but the body is `{"error": "No Shelly device connected"}`,
not the claimed `{"error": "No device connected"}`. -/
theorem metrics_404_body_counterexample :
    handle_metrics ([] : List (String × ℕ)) WaitOutcome.timedOut
      = MetricsResponse.err 404 "No Shelly device connected" ∧
    ("No Shelly device connected" == "No device connected") = false :=
  ⟨rfl, by decide⟩

/-- C9 (amended): every `GET /metrics` request with zero registered
devices returns status 404 with body `{"error": "No Shelly device
connected"}`, whatever the session type and the RPC layer would do. -/
theorem metrics_no_device_404 {S : Type} (w : WaitOutcome) :
    handle_metrics ([] : List (String × S)) w
      = MetricsResponse.err 404 "No Shelly device connected" :=
  rfl

/-! ## Claim theorems: metric extraction -/

/-- The extraction-purity input of the spec:
`{"apower":12.3,"voltage":230.1,"current":0.0535,"aenergy":{"total":100.5}}`. -/
def purityInput : JVal :=
  JVal.obj [("apower", JVal.num 12.3), ("voltage", JVal.num 230.1),
    ("current", JVal.num 0.0535), ("aenergy", JVal.obj [("total", JVal.num 100.5)])]

/-- C3 counterexample: the output of the extraction function on the
purity input has no key `power_total_watts` — its keys carry the
`shelly_` prefix (`shelly_power_total_watts` holds the 12.3). -/
theorem extraction_purity_counterexample :
    lookupKey (extractMetrics purityInput) "power_total_watts" = none ∧
    lookupKey (extractMetrics purityInput) "shelly_power_total_watts"
      = some (MVal.f 12.3) := by
  exact ⟨rfl, rfl⟩

/-- C3 (amended): on the purity input the extraction function returns
exactly the four entries `shelly_power_total_watts = 12.3`,
`shelly_power_voltage_volts = 230.1`, `shelly_power_current_amps =
0.0535`, `shelly_energy_total_wh = 100.5` — no extra keys, no missing
keys, in this order. -/
theorem extraction_purity :
    extractMetrics purityInput
      = [("shelly_power_total_watts", MVal.f 12.3),
         ("shelly_power_voltage_volts", MVal.f 230.1),
         ("shelly_power_current_amps", MVal.f 0.0535),
         ("shelly_energy_total_wh", MVal.f 100.5)] := by
  rfl

/-- C7: extraction is total over every JSON value: a dict input yields the
map the `try` body built — unchanged when the body completed (`.ok`), and
the partial map carried by the caught exception when a conversion raised
(`.error`); any non-dict input fails its first membership test, the raise
is caught, and the empty map is returned. -/
theorem extraction_total (v : JVal) :
    (∃ fields m, v = JVal.obj fields ∧ extractMetrics v = m ∧
        (extractSteps fields [] = Except.ok m ∨
         extractSteps fields [] = Except.error m)) ∨
    extractMetrics v = [] := by
  cases v with
  | obj fields =>
      left
      cases h : extractSteps fields [] with
      | ok m =>
          refine ⟨fields, m, rfl, ?_, Or.inl h⟩
          show (match extractSteps fields [] with
            | Except.ok m => m
            | Except.error m => m) = m
          rw [h]
      | error m =>
          refine ⟨fields, m, rfl, ?_, Or.inr h⟩
          show (match extractSteps fields [] with
            | Except.ok m => m
            | Except.error m => m) = m
          rw [h]
  | null => right; rfl
  | bool b => right; rfl
  | num q => right; rfl
  | str s => right; rfl
  | arr elems => right; rfl

/-! ## Key ownership of the extraction pipeline

Machinery for the abandonment claims: each statement of the `try` block
writes a fixed set of output keys, and a raised conversion error carries
the metrics built so far past every remaining statement.  `keysOut`
projects the metric map out of a step outcome whether the step completed
or raised. -/

end ShellyGateway
